import Mathlib

/-!
Verification development for the hosting-panel frontend.

The definitions below are a shallow embedding of the TypeScript source:

* `frontend/src/components/Dashboard.tsx` — the dashboard live-stats
  poller: its state (`stats`, `loading`, `error`), the fetch completion
  handler `fetchDashboardStats`, the render dispatch, and the
  `useEffect` mount/interval/cleanup schedule.
* `frontend/src/app/system/page.tsx` — the system-status poller
  (same shape, 5000 ms interval).
* `frontend/src/app/email/page.tsx` — `getQuotaPercentage`.
* the file-manager page — `handleFileSelect`.

JavaScript numbers are modelled as `ℚ` (the gauge values and the
quota arithmetic never depend on binary-float rounding in the
properties below); a JS value that would be `NaN` is modelled as
`Option.none`.  Fetch outcomes are `Except String payload`: `ok` for a
2xx response that deserialised, `error` for a network failure or
non-2xx status, exactly the two branches of the `try`/`catch`.
-/

namespace HostingPanel

/-- Field group `websites` of `DashboardStats` (Dashboard.tsx lines 20-25). -/
structure WebsiteStats where
  total : ℕ
  active : ℕ
  inactive : ℕ
  ssl_issues : ℕ
deriving DecidableEq, Repr

/-- Field group `databases` of `DashboardStats` (Dashboard.tsx lines 26-30). -/
structure DatabaseStats where
  total : ℕ
  running : ℕ
  stopped : ℕ
deriving DecidableEq, Repr

/-- Field group `docker` of `DashboardStats` (Dashboard.tsx lines 31-35). -/
structure DockerStats where
  containers : ℕ
  running : ℕ
  images : ℕ
deriving DecidableEq, Repr

/-- Field group `system` of `DashboardStats` (Dashboard.tsx lines 36-41); the three
gauges are JS numbers, modelled as rationals. -/
structure SystemStats where
  cpu_usage : ℚ
  memory_usage : ℚ
  disk_usage : ℚ
  uptime : String
deriving DecidableEq, Repr

/-- Field group `users` of `DashboardStats` (Dashboard.tsx lines 42-46). -/
structure UserStats where
  total : ℕ
  active : ℕ
  online : ℕ
deriving DecidableEq, Repr

/-- The `type` tag of a recent-activity entry (Dashboard.tsx line 49). -/
inductive ActivityType where
  | website | database | docker | user | system
deriving DecidableEq, Repr

/-- The `status` tag of a recent-activity entry (Dashboard.tsx line 52). -/
inductive ActivityStatus where
  | success | warning | error
deriving DecidableEq, Repr

/-- One entry of `recent_activity` (Dashboard.tsx lines 47-53). -/
structure Activity where
  id : String
  type : ActivityType
  action : String
  timestamp : String
  status : ActivityStatus
deriving DecidableEq, Repr

/-- The `DashboardStats` payload (Dashboard.tsx lines 19-54). -/
structure DashboardStats where
  websites : WebsiteStats
  databases : DatabaseStats
  docker : DockerStats
  system : SystemStats
  users : UserStats
  recent_activity : List Activity
deriving DecidableEq, Repr

/-- The component state of `Dashboard`: the three `useState` hooks
(Dashboard.tsx lines 57-59). -/
structure DashState where
  stats : Option DashboardStats
  loading : Bool
  error : Option String
deriving DecidableEq, Repr

/-- Initial state: `useState(null)`, `useState(true)`, `useState(null)`
(Dashboard.tsx lines 57-59). -/
def initState : DashState := ⟨none, true, none⟩

/-- The completion handler of `fetchDashboardStats` (Dashboard.tsx
lines 67-76): on success `setStats(data); setLoading(false)`; on
failure `setError(msg); setLoading(false)`.  Note that neither branch
touches the field the other branch sets. -/
def applyFetch (s : DashState) (r : Except String DashboardStats) : DashState :=
  match r with
  | Except.ok data => { s with stats := some data, loading := false }
  | Except.error msg => { s with error := some msg, loading := false }

/-- The four mutually exclusive things `Dashboard` can render
(Dashboard.tsx lines 110-372). -/
inductive View where
  | loadingSpinner
  | errorRetry (msg : String)
  | noData
  | statsView (st : DashboardStats)
deriving DecidableEq, Repr

/-- The render dispatch of `Dashboard` (Dashboard.tsx lines 110-140):
`if (loading) … if (error) … if (!stats) … return <stats view>`. -/
def render (s : DashState) : View :=
  if s.loading then View.loadingSpinner
  else
    match s.error with
    | some msg => View.errorRetry msg
    | none =>
      match s.stats with
      | none => View.noData
      | some st => View.statsView st

/-- State after a sequence of fetch completions, starting from the
initial state, in resolution order. -/
def runPolls (rs : List (Except String DashboardStats)) : DashState :=
  rs.foldl applyFetch initState

/-- A concrete payload used in witnesses and counterexamples. -/
def sampleStats : DashboardStats where
  websites := ⟨3, 2, 1, 0⟩
  databases := ⟨2, 2, 0⟩
  docker := ⟨4, 3, 5⟩
  system := ⟨117/5, 67, 45, "5 days"⟩
  users := ⟨7, 6, 1⟩
  recent_activity := [⟨"a1", ActivityType.website, "created", "t0", ActivityStatus.success⟩]

/-- A second concrete payload, distinct from `sampleStats`. -/
def sampleStats2 : DashboardStats :=
  { sampleStats with users := ⟨8, 6, 2⟩, recent_activity := [] }

theorem runPolls_append (rs : List (Except String DashboardStats))
    (r : Except String DashboardStats) :
    runPolls (rs ++ [r]) = applyFetch (runPolls rs) r := by
  simp [runPolls, List.foldl_append]

theorem stats_none_of_all_failures (s : DashState)
    (rs : List (Except String DashboardStats))
    (h : ∀ r ∈ rs, r.isOk = false) :
    (rs.foldl applyFetch s).stats = s.stats := by
  induction rs generalizing s with
  | nil => rfl
  | cons r rs ih =>
    cases r with
    | ok d =>
      have := h _ (List.mem_cons_self _ _)
      simp [Except.isOk, Except.toBool] at this
    | error msg =>
      simp only [List.foldl_cons]
      rw [ih _ (fun r hr => h r (List.mem_cons_of_mem _ hr))]
      rfl

theorem stats_of_render_statsView (s : DashState) (d : DashboardStats)
    (h : render s = View.statsView d) : s.stats = some d := by
  unfold render at h
  split at h
  · exact absurd h (by simp)
  · rcases he : s.error with _ | msg
    · rw [he] at h
      rcases hs : s.stats with _ | st
      · rw [hs] at h; exact absurd h (by simp)
      · rw [hs] at h
        simp only [View.statsView.injEq] at h
        exact congrArg some h
    · rw [he] at h; exact absurd h (by simp)

/-- C1: the claim says a successful poll clears any previously set error,
leaving the error flag `null`.  It is false: after a failed poll followed
by a successful poll, the snapshot is replaced but the error flag is still
set, because the success branch of `fetchDashboardStats` never calls
`setError(null)`. -/
theorem c1_counterexample :
    (runPolls [Except.error "boom", Except.ok sampleStats]).stats = some sampleStats ∧
    (runPolls [Except.error "boom", Except.ok sampleStats]).error = some "boom" ∧
    (runPolls [Except.error "boom", Except.ok sampleStats]).error ≠ none := by
  refine ⟨rfl, rfl, ?_⟩
  intro h
  exact Option.noConfusion h

/-- C1 (amended): a successful fetch replaces the snapshot state with the
fetched payload and clears the loading flag, but leaves the error state
exactly as it was — the success branch never resets it. -/
theorem c1_success_replaces_stats_keeps_error (s : DashState) (d : DashboardStats) :
    applyFetch s (Except.ok d) =
      { stats := some d, loading := false, error := s.error } :=
  rfl

/-- C2: the claim says that after a failed poll following a success, the
rendered view still displays the previous snapshot.  It is false: the
state does retain the snapshot and sets the error flag, but the render
dispatch checks `error` before `stats`, so the whole view is replaced by
the error/retry panel. -/
theorem c2_counterexample :
    render (runPolls [Except.ok sampleStats, Except.error "boom"])
      = View.errorRetry "boom" ∧
    View.errorRetry "boom" ≠ View.statsView sampleStats ∧
    (runPolls [Except.ok sampleStats, Except.error "boom"]).stats = some sampleStats :=
  ⟨rfl, fun h => View.noConfusion h, rfl⟩

/-- C2 (amended): if a fetch fails while the state holds the previous
successful payload, the snapshot state is unchanged and the error flag
is set, but the rendered view is the error/retry panel, not the retained
snapshot. -/
theorem c2_failure_keeps_stats_but_renders_error
    (s : DashState) (d : DashboardStats) (msg : String) (h : s.stats = some d) :
    (applyFetch s (Except.error msg)).stats = some d ∧
    (applyFetch s (Except.error msg)).error = some msg ∧
    render (applyFetch s (Except.error msg)) = View.errorRetry msg := by
  refine ⟨?_, rfl, rfl⟩
  simpa [applyFetch] using h

/-- C2 witness: concrete run, success then failure. -/
theorem c2_witness :
    (applyFetch (applyFetch initState (Except.ok sampleStats)) (Except.error "boom")).stats
      = some sampleStats ∧
    (applyFetch (applyFetch initState (Except.ok sampleStats)) (Except.error "boom")).error
      = some "boom" ∧
    render (applyFetch (applyFetch initState (Except.ok sampleStats)) (Except.error "boom"))
      = View.errorRetry "boom" :=
  c2_failure_keeps_stats_but_renders_error _ sampleStats "boom" rfl

/-- C6: after any poll sequence ending in a successful fetch, the whole
state is determined: the snapshot equals exactly the payload of that
last successful fetch (entire replacement, no merging), loading is
cleared, and the error field carries over. -/
theorem c6_success_replaces_whole_snapshot
    (rs : List (Except String DashboardStats)) (d : DashboardStats) :
    runPolls (rs ++ [Except.ok d]) =
      { stats := some d, loading := false, error := (runPolls rs).error } := by
  rw [runPolls_append]; rfl

/-- C7: the claim says every reachable state before the first successful
fetch renders the loading indicator.  It is false: after a failed first
fetch (no success yet), `setLoading(false)` has run and the error flag is
set, so the view renders the error/retry panel, not the spinner. -/
theorem c7_counterexample :
    render (runPolls [Except.error "boom"]) = View.errorRetry "boom" ∧
    View.errorRetry "boom" ≠ View.loadingSpinner ∧
    (runPolls [Except.error "boom"]).stats = none :=
  ⟨rfl, fun h => View.noConfusion h, rfl⟩

/-- C7 (amended): before any fetch resolves the view shows the loading
spinner, and before the first successful fetch the view never renders
snapshot data (stale or default): the stats state stays `none` through any
all-failure sequence, and a state with `stats = none` cannot render the
stats view. -/
theorem c7_no_stats_rendered_before_first_success
    (rs : List (Except String DashboardStats))
    (h : ∀ r ∈ rs, r.isOk = false) :
    render initState = View.loadingSpinner ∧
    (runPolls rs).stats = none ∧
    ∀ d : DashboardStats, render (runPolls rs) ≠ View.statsView d := by
  have hnone : (runPolls rs).stats = none := stats_none_of_all_failures initState rs h
  refine ⟨rfl, hnone, ?_⟩
  intro d hd
  have := stats_of_render_statsView _ _ hd
  rw [hnone] at this
  exact Option.noConfusion this

/-- C7 witness: a single failed poll. -/
theorem c7_witness :
    render initState = View.loadingSpinner ∧
    (runPolls [Except.error "x"]).stats = none ∧
    ∀ d : DashboardStats, render (runPolls [Except.error "x"]) ≠ View.statsView d :=
  c7_no_stats_rendered_before_first_success [Except.error "x"]
    (by intro r hr; rw [List.mem_singleton] at hr; subst hr; rfl)

/-- The dashboard poll interval: `setInterval(fetchDashboardStats, 30000)`
(Dashboard.tsx line 63). -/
def dashboardIntervalMs : ℕ := 30000

/-- The system-status poll interval: `setInterval(fetchSystemStatus, 5000)`
(system/page.tsx line 50). -/
def systemIntervalMs : ℕ := 5000

/-- Issue time of the `n`-th fetch of a poller with interval `i`: the mount
effect calls the fetch once immediately (`n = 0` at `t = 0`) and the
interval fires every `i` ms thereafter, calling the fetch unconditionally —
neither effect body consults any pending-fetch state. -/
def issueTime (i n : ℕ) : ℕ := n * i

/-- Fetch `n`, taking `dur n` ms to resolve or error, is in flight at
time `t`. -/
def inFlight (i : ℕ) (dur : ℕ → ℕ) (n t : ℕ) : Prop :=
  issueTime i n ≤ t ∧ t < issueTime i n + dur n

instance (i : ℕ) (dur : ℕ → ℕ) (n t : ℕ) : Decidable (inFlight i dur n t) :=
  inferInstanceAs (Decidable (_ ∧ _))

/-- A fetch is issued at absolute time `t` by a poller that is unmounted at
time `tU`: ticks occur exactly at the multiples of the interval (fetch 0 at
mount), and the cleanup's `clearInterval` stops all ticks from the unmount
on (Dashboard.tsx line 64, system/page.tsx line 51). -/
def issuedAt (i tU t : ℕ) : Prop := t < tU ∧ ∃ n, t = issueTime i n

/-- C3: the claim says an interval tick never starts a new fetch while a
previous one is pending.  It is false: the interval calls
`fetchDashboardStats` unconditionally, so when fetch 0 takes 40000 ms the
tick at t = 30000 starts fetch 1 while fetch 0 is still in flight — two
distinct fetches are in flight at t = 30000. -/
theorem c3_counterexample :
    inFlight dashboardIntervalMs (fun _ => 40000) 0 30000 ∧
    inFlight dashboardIntervalMs (fun _ => 40000) 1 30000 ∧
    (0 : ℕ) ≠ 1 := by
  refine ⟨⟨?_, ?_⟩, ⟨?_, ?_⟩, ?_⟩ <;> decide

/-- C3 (amended): the interval starts a fetch at every tick with no
single-flight guard, so whenever a fetch outlasts the 30000 ms interval it
is still in flight at the instant the next fetch is issued: fetches `n`
and `n + 1` overlap at time `(n + 1) * 30000`. -/
theorem c3_overlap_when_fetch_outlasts_interval
    (dur : ℕ → ℕ) (n : ℕ)
    (h : dashboardIntervalMs < dur n) (h' : 0 < dur (n + 1)) :
    inFlight dashboardIntervalMs dur n (issueTime dashboardIntervalMs (n + 1)) ∧
    inFlight dashboardIntervalMs dur (n + 1) (issueTime dashboardIntervalMs (n + 1)) := by
  unfold inFlight issueTime dashboardIntervalMs at *
  constructor
  · constructor
    · nlinarith
    · nlinarith
  · constructor
    · exact le_refl _
    · omega

/-- C3 witness: fetch durations of 40000 ms against the 30000 ms interval;
fetches 0 and 1 overlap at t = 30000. -/
theorem c3_overlap_witness :
    inFlight dashboardIntervalMs (fun _ => 40000) 0
      (issueTime dashboardIntervalMs 1) ∧
    inFlight dashboardIntervalMs (fun _ => 40000) 1
      (issueTime dashboardIntervalMs 1) :=
  c3_overlap_when_fetch_outlasts_interval (fun _ => 40000) 0 (by decide) (by decide)

/-- A lifecycle event of the dashboard component: the unmount cleanup
running, or an in-flight fetch resolving (successfully or not). -/
inductive Ev where
  | unmount
  | resolve (r : Except String DashboardStats)

/-- The component together with its mounted/unmounted status. -/
structure Comp where
  st : DashState
  mounted : Bool
deriving DecidableEq, Repr

/-- One lifecycle step.  The cleanup returned by the effect
(Dashboard.tsx line 64) only calls `clearInterval`; the completion
handler of `fetchDashboardStats` (lines 67-76) consults no liveness
flag, so a resolution applies `applyFetch` to the state even when
`mounted = false`. -/
def stepEv (c : Comp) (e : Ev) : Comp :=
  match e with
  | Ev.unmount => { c with mounted := false }
  | Ev.resolve r => { c with st := applyFetch c.st r }

/-- Component after a sequence of lifecycle events, starting mounted in
the initial state. -/
def runEvents (es : List Ev) : Comp := es.foldl stepEv ⟨initState, true⟩

/-- C4: the claim says no fetch completion mutates component state after
the unmount cleanup has run.  It is false: a fetch resolving after the
unmount still runs the state setters — resolving after `unmount` changes
the state from the post-unmount state. -/
theorem c4_counterexample :
    (runEvents [Ev.unmount]).mounted = false ∧
    (runEvents [Ev.unmount, Ev.resolve (Except.ok sampleStats)]).st
      ≠ (runEvents [Ev.unmount]).st ∧
    (runEvents [Ev.unmount, Ev.resolve (Except.ok sampleStats)]).st.stats
      = some sampleStats := by
  refine ⟨rfl, ?_, rfl⟩
  intro h
  have : (some sampleStats : Option DashboardStats) = none := congrArg DashState.stats h
  exact Option.noConfusion this

/-- C4 (amended): the unmount cleanup only cancels the interval and leaves
the component state untouched, while a fetch resolution applies its result
to the state unconditionally — in particular also when unmount events have
already occurred earlier in the event sequence. -/
theorem c4_resolution_updates_state_after_unmount
    (es : List Ev) (r : Except String DashboardStats) :
    (runEvents (es ++ [Ev.resolve r])).st = applyFetch (runEvents es).st r ∧
    (runEvents (es ++ [Ev.unmount])).st = (runEvents es).st ∧
    (runEvents (es ++ [Ev.unmount])).mounted = false := by
  refine ⟨?_, ?_, ?_⟩ <;> simp [runEvents, List.foldl_append, stepEv]

/-- C5: on mount each poller issues fetch 0 immediately (time 0) and then
one fetch per interval tick: the dashboard poller every 30000 ms, the
system-status poller every 5000 ms; only fetch 0 is issued at time 0, and
the cleanup's `clearInterval` means nothing is issued at or after the
unmount time. -/
theorem c5_mount_schedule (tU t n : ℕ) (h0 : 0 < tU)
    (h : issuedAt dashboardIntervalMs tU t) :
    dashboardIntervalMs = 30000 ∧
    systemIntervalMs = 5000 ∧
    issuedAt dashboardIntervalMs tU 0 ∧
    issuedAt systemIntervalMs tU 0 ∧
    (∀ m, issueTime dashboardIntervalMs m = 0 → m = 0) ∧
    issueTime dashboardIntervalMs (n + 1) = issueTime dashboardIntervalMs n + 30000 ∧
    issueTime systemIntervalMs (n + 1) = issueTime systemIntervalMs n + 5000 ∧
    t < tU := by
  obtain ⟨ht, -⟩ := h
  have hiss : ∀ i : ℕ, issuedAt i tU 0 := by
    intro i
    unfold issuedAt
    exact ⟨h0, 0, (Nat.zero_mul i).symm⟩
  have huniq : ∀ m, issueTime dashboardIntervalMs m = 0 → m = 0 := by
    intro m hm
    simpa [issueTime, dashboardIntervalMs] using hm
  have hd : issueTime dashboardIntervalMs (n + 1)
      = issueTime dashboardIntervalMs n + 30000 := by
    simp [issueTime, Nat.succ_mul, dashboardIntervalMs]
  have hsys : issueTime systemIntervalMs (n + 1)
      = issueTime systemIntervalMs n + 5000 := by
    simp [issueTime, Nat.succ_mul, systemIntervalMs]
  exact ⟨rfl, rfl, hiss _, hiss _, huniq, hd, hsys, ht⟩

/-- C5 witness: unmount at 60001 ms; the fetch issued at t = 30000 is tick 1. -/
theorem c5_mount_schedule_witness :
    dashboardIntervalMs = 30000 ∧
    systemIntervalMs = 5000 ∧
    issuedAt dashboardIntervalMs 60001 0 ∧
    issuedAt systemIntervalMs 60001 0 ∧
    (∀ m, issueTime dashboardIntervalMs m = 0 → m = 0) ∧
    issueTime dashboardIntervalMs (1 + 1) = issueTime dashboardIntervalMs 1 + 30000 ∧
    issueTime systemIntervalMs (1 + 1) = issueTime systemIntervalMs 1 + 5000 ∧
    30000 < 60001 :=
  c5_mount_schedule 60001 30000 1 (by decide) ⟨by decide, 1, rfl⟩

/-- JS `Number.prototype.toFixed(1)` on the nonnegative gauge values:
round to the nearest tenth and print integer part, a dot, and the single
tenths digit (Dashboard.tsx lines 233, 248, 263 render
`{value.toFixed(1)}%`). -/
def toFixedOne (q : ℚ) : String :=
  let n : ℤ := ⌊q * 10 + 1 / 2⌋
  toString (n / 10) ++ "." ++ toString (n % 10)

/-- The gauge label rendered next to each usage bar:
`{value.toFixed(1)}%`. -/
def gaugeLabel (v : ℚ) : String := toFixedOne v ++ "%"

/-- The progress-bar width set by `style=\x7b\x7b width: value% \x7d\x7d`
(Dashboard.tsx lines 239, 254, 269): the CSS width percentage is the raw
gauge value itself. -/
def barWidthPercent (v : ℚ) : ℚ := v

/-- The three gauge rows of the System Resources card (Dashboard.tsx
lines 228-272): rendered label and bar width for cpu, memory, disk. -/
def renderSystemGauges (sys : SystemStats) : List (String × ℚ) :=
  [ (gaugeLabel sys.cpu_usage, barWidthPercent sys.cpu_usage),
    (gaugeLabel sys.memory_usage, barWidthPercent sys.memory_usage),
    (gaugeLabel sys.disk_usage, barWidthPercent sys.disk_usage) ]

/-- C8: for a snapshot whose gauges satisfy the [0,100] invariant, each
gauge renders its label as the value formatted to one decimal place
followed by a percent sign, and the bar width equals the raw gauge value,
so every bar width lies within [0,100] and widths are ordered exactly as
the gauge values (proportionality). -/
theorem c8_gauge_rendering (sys : SystemStats)
    (hc : 0 ≤ sys.cpu_usage ∧ sys.cpu_usage ≤ 100)
    (hm : 0 ≤ sys.memory_usage ∧ sys.memory_usage ≤ 100)
    (hd : 0 ≤ sys.disk_usage ∧ sys.disk_usage ≤ 100) :
    renderSystemGauges sys =
      [ (toFixedOne sys.cpu_usage ++ "%", sys.cpu_usage),
        (toFixedOne sys.memory_usage ++ "%", sys.memory_usage),
        (toFixedOne sys.disk_usage ++ "%", sys.disk_usage) ] ∧
    (∀ p ∈ renderSystemGauges sys, 0 ≤ p.2 ∧ p.2 ≤ 100) ∧
    (∀ a b : ℚ, a ≤ b → barWidthPercent a ≤ barWidthPercent b) := by
  refine ⟨rfl, ?_, fun a b hab => hab⟩
  intro p hp
  simp only [renderSystemGauges, List.mem_cons, List.not_mem_nil, or_false] at hp
  rcases hp with h | h | h <;> subst h
  · exact hc
  · exact hm
  · exact hd

/-- C8 witness: the spec's example snapshot, `cpu_usage = 23.4`,
`memory_usage = 67.0`, `disk_usage = 45.0`, renders `23.4%`, `67.0%`,
`45.0%` with bar widths 23.4, 67, 45, all within [0,100]. -/
theorem c8_gauge_rendering_witness :
    renderSystemGauges sampleStats.system =
      [ ("23.4%", 117/5), ("67.0%", 67), ("45.0%", 45) ] ∧
    (∀ p ∈ renderSystemGauges sampleStats.system, 0 ≤ p.2 ∧ p.2 ≤ 100) := by
  have h := c8_gauge_rendering sampleStats.system
    (by constructor <;> norm_num [sampleStats])
    (by constructor <;> norm_num [sampleStats])
    (by constructor <;> norm_num [sampleStats])
  refine ⟨?_, h.2.1⟩
  rw [h.1]
  have hcpu : toFixedOne sampleStats.system.cpu_usage = "23.4" := by
    have hf : ⌊sampleStats.system.cpu_usage * 10 + 1 / 2⌋ = (234 : ℤ) := by
      rw [Int.floor_eq_iff]
      constructor <;> norm_num [sampleStats]
    simp only [toFixedOne, hf]
    decide
  have hmem : toFixedOne sampleStats.system.memory_usage = "67.0" := by
    have hf : ⌊sampleStats.system.memory_usage * 10 + 1 / 2⌋ = (670 : ℤ) := by
      rw [Int.floor_eq_iff]
      constructor <;> norm_num [sampleStats]
    simp only [toFixedOne, hf]
    decide
  have hdisk : toFixedOne sampleStats.system.disk_usage = "45.0" := by
    have hf : ⌊sampleStats.system.disk_usage * 10 + 1 / 2⌋ = (450 : ℤ) := by
      rw [Int.floor_eq_iff]
      constructor <;> norm_num [sampleStats]
    simp only [toFixedOne, hf]
    decide
  rw [hcpu, hmem, hdisk]
  simp [sampleStats]

/-- Digit string to number: the value of a list of decimal digit
characters. -/
def digitsVal (cs : List Char) : ℕ :=
  cs.foldl (fun acc c => 10 * acc + (c.toNat - 48)) 0

/-- JS `parseFloat` restricted to the strings produced by the email
page's strip (only decimal digits and dots): parse the longest prefix of
the form `digits` or `digits.digits` (either side may be empty but not
both); `none` models `NaN`. -/
def jsParseFloat (cs : List Char) : Option ℚ :=
  let intPart := cs.takeWhile Char.isDigit
  let rest := cs.dropWhile Char.isDigit
  match rest with
  | '.' :: rest2 =>
    let fracPart := rest2.takeWhile Char.isDigit
    if intPart.isEmpty && fracPart.isEmpty then none
    else some ((digitsVal intPart : ℚ) + (digitsVal fracPart : ℚ) / 10 ^ fracPart.length)
  | _ => if intPart.isEmpty then none else some (digitsVal intPart)

/-- The `replace(/[^\d.]/g, '')` strip in `getQuotaPercentage`
(email/page.tsx lines 74-75): keep only digits and dots. -/
def stripNumeric (s : String) : List Char :=
  s.data.filter (fun c => c.isDigit || c == '.')

/-- Function `getQuotaPercentage` (email/page.tsx lines 73-78): parse the numeric
content of `used` and `quota`; if the quota parses to 0 return 0,
otherwise return `(used / quota) * 100`; `none` models a `NaN` result. -/
def getQuotaPercentage (used quota : String) : Option ℚ :=
  let usedNum := jsParseFloat (stripNumeric used)
  let quotaNum := jsParseFloat (stripNumeric quota)
  if quotaNum = some 0 then some 0
  else
    match usedNum, quotaNum with
    | some u, some q => some (u / q * 100)
    | _, _ => none

/-- C9: `getQuotaPercentage` is total (it is a function into
`Option ℚ`) and guarded against division by zero: whenever the numeric
content of `quota` parses to 0 the result is 0 — regardless of `used` —
and whenever both strings parse with a nonzero quota the result is
`(used / quota) * 100`. -/
theorem c9_quota_percentage (used quota : String) :
    (jsParseFloat (stripNumeric quota) = some 0 →
      getQuotaPercentage used quota = some 0) ∧
    (∀ u q : ℚ, jsParseFloat (stripNumeric used) = some u →
      jsParseFloat (stripNumeric quota) = some q → q ≠ 0 →
      getQuotaPercentage used quota = some (u / q * 100)) := by
  constructor
  · intro h
    simp [getQuotaPercentage, h]
  · intro u q hu hq hq0
    simp [getQuotaPercentage, hu, hq, hq0]

/-- C9 witness: `"500 MB"` used against `"0 GB"` quota gives 0 (no
division by zero); against `"2 GB"` it gives 25000, i.e.
`(500 / 2) * 100`. -/
theorem c9_quota_percentage_witness :
    getQuotaPercentage "500 MB" "0 GB" = some 0 ∧
    getQuotaPercentage "500 MB" "2 GB" = some 25000 := by
  constructor
  · exact (c9_quota_percentage "500 MB" "0 GB").1 rfl
  · have h := (c9_quota_percentage "500 MB" "2 GB").2 500 2 rfl rfl (by norm_num)
    rw [h]
    congr 1
    norm_num

/-- Function `handleFileSelect` of the file-manager page (lines 54-60): toggle a
file id in the selection — filter it out when present, append it when
absent. -/
def handleFileSelect (fileId : String) (prev : List String) : List String :=
  if fileId ∈ prev then prev.filter (fun id => id != fileId)
  else prev ++ [fileId]

theorem filter_ne_append_perm (a : String) :
    ∀ l : List String, l.Nodup → a ∈ l →
      (l.filter (fun x => x != a) ++ [a]).Perm l := by
  intro l
  induction l with
  | nil => intro _ h; exact absurd h (List.not_mem_nil a)
  | cons b l ih =>
    intro hnd hmem
    by_cases hba : b = a
    · subst hba
      have hnotmem : b ∉ l := (List.nodup_cons.mp hnd).1
      have hfilter : l.filter (fun x => x != b) = l := by
        rw [List.filter_eq_self]
        intro x hx
        simp only [bne_iff_ne, ne_eq, decide_eq_true_eq]
        intro hxb
        exact hnotmem (hxb ▸ hx)
      simp only [List.filter_cons, bne_self_eq_false, hfilter]
      exact List.perm_append_singleton b l
    · have hmem' : a ∈ l := by
        rcases List.mem_cons.mp hmem with h | h
        · exact absurd h.symm hba
        · exact h
      have hfb : (b != a) = true := by
        simp only [bne_iff_ne, ne_eq, decide_eq_true_eq]
        exact hba
      simp only [List.filter_cons, hfb, if_true, List.cons_append]
      exact ((ih (List.nodup_cons.mp hnd).2 hmem').cons b)

/-- C10: the claim says toggling the same fileId twice returns a
selection equal to the original list.  It is false: for the duplicate-free
selection `["a", "b"]`, toggling `"a"` removes it from the front and
toggling again appends it at the end, giving `["b", "a"]` — the same
elements, but not the original list. -/
theorem c10_counterexample :
    (["a", "b"] : List String).Nodup ∧
    handleFileSelect "a" (handleFileSelect "a" ["a", "b"]) = ["b", "a"] ∧
    handleFileSelect "a" (handleFileSelect "a" ["a", "b"]) ≠ ["a", "b"] := by
  refine ⟨by decide, by decide, by decide⟩

/-- C10 (amended): on a duplicate-free selection, `handleFileSelect`
removes the fileId when present and appends it when absent; applying the
toggle twice yields a permutation of the original selection (the same
fileIds), and yields the original list itself whenever the fileId was not
previously selected. -/
theorem c10_toggle_behaviour (fileId : String) (prev : List String)
    (h : prev.Nodup) :
    (fileId ∈ prev →
      handleFileSelect fileId prev = prev.filter (fun id => id != fileId)) ∧
    (fileId ∉ prev → handleFileSelect fileId prev = prev ++ [fileId]) ∧
    (handleFileSelect fileId (handleFileSelect fileId prev)).Perm prev ∧
    (fileId ∉ prev →
      handleFileSelect fileId (handleFileSelect fileId prev) = prev) := by
  have hfilter_id : fileId ∉ prev → prev.filter (fun x => x != fileId) = prev := by
    intro hnot
    rw [List.filter_eq_self]
    intro x hx
    simp only [bne_iff_ne, ne_eq, decide_eq_true_eq]
    intro hxf
    exact hnot (hxf ▸ hx)
  have hdouble : fileId ∉ prev →
      handleFileSelect fileId (handleFileSelect fileId prev) = prev := by
    intro hnot
    have h1 : handleFileSelect fileId prev = prev ++ [fileId] := by
      rw [handleFileSelect, if_neg hnot]
    rw [h1, handleFileSelect, if_pos (by simp), List.filter_append]
    simp [bne_self_eq_false, hfilter_id hnot]
  refine ⟨?_, ?_, ?_, hdouble⟩
  · intro hmem
    rw [handleFileSelect, if_pos hmem]
  · intro hnot
    rw [handleFileSelect, if_neg hnot]
  · by_cases hmem : fileId ∈ prev
    · have h1 : handleFileSelect fileId prev = prev.filter (fun x => x != fileId) := by
        rw [handleFileSelect, if_pos hmem]
      have hnotmem : fileId ∉ prev.filter (fun x => x != fileId) := by
        intro hx
        have := (List.mem_filter.mp hx).2
        simp [bne_self_eq_false] at this
      rw [h1, handleFileSelect, if_neg hnotmem]
      exact filter_ne_append_perm fileId prev h hmem
    · rw [hdouble hmem]

/-- C10 witness: the amended behaviour on the concrete duplicate-free
selection `["a", "b"]` with fileId `"a"`. -/
theorem c10_toggle_behaviour_witness :
    ("a" ∈ (["a", "b"] : List String) →
      handleFileSelect "a" ["a", "b"]
        = (["a", "b"] : List String).filter (fun id => id != "a")) ∧
    ("a" ∉ (["a", "b"] : List String) →
      handleFileSelect "a" ["a", "b"] = ["a", "b"] ++ ["a"]) ∧
    (handleFileSelect "a" (handleFileSelect "a" ["a", "b"])).Perm ["a", "b"] ∧
    ("a" ∉ (["a", "b"] : List String) →
      handleFileSelect "a" (handleFileSelect "a" ["a", "b"]) = ["a", "b"]) :=
  c10_toggle_behaviour "a" ["a", "b"] (by decide)

end HostingPanel
